import Mathlib

/-!
Verification development for the Red Ball platformer (src/main.py).

The game's numeric state (Python floats) is modelled in exact arithmetic:
the physics / collision / camera / session layer is embedded over the
rationals, so that every definition is executable and every concrete run
is decidable; the moving-platform motion model, which calls math.sin and
math.cos, is embedded over the reals.

pygame.Rect stores integer coordinates: constructing a Rect from floats,
or assigning a float to rect.x / rect.y, truncates toward zero (Python
int()).  That truncation is modelled by pyInt below.
-/

namespace RedBall

/-! ## MatrixMath (src/main.py lines 102-165)

3x3 homogeneous affine matrices, entry by entry, over any commutative
ring, so the same definitions serve the rational-valued camera/physics
model and the real-valued motion model. -/

structure Mat3 (α : Type) where
  m00 : α
  m01 : α
  m02 : α
  m10 : α
  m11 : α
  m12 : α
  m20 : α
  m21 : α
  m22 : α
deriving DecidableEq

variable {α : Type} [CommRing α]

def create_translation_matrix (dx dy : α) : Mat3 α :=
  ⟨1, 0, dx,
   0, 1, dy,
   0, 0, 1⟩

def create_scale_matrix (sx sy : α) : Mat3 α :=
  ⟨sx, 0, 0,
   0, sy, 0,
   0, 0, 1⟩

/-- apply_transformation: multiply the matrix with the homogeneous column
[x, y, 1] and drop the third coordinate. -/
def apply_transformation (m : Mat3 α) (p : α × α) : α × α :=
  (m.m00 * p.1 + m.m01 * p.2 + m.m02 * 1,
   m.m10 * p.1 + m.m11 * p.2 + m.m12 * 1)

/-- combine_matrices: matrix product (the source's variadic np.dot chain;
every call site passes exactly two matrices). -/
def combine_matrices (a b : Mat3 α) : Mat3 α :=
  ⟨a.m00 * b.m00 + a.m01 * b.m10 + a.m02 * b.m20,
   a.m00 * b.m01 + a.m01 * b.m11 + a.m02 * b.m21,
   a.m00 * b.m02 + a.m01 * b.m12 + a.m02 * b.m22,
   a.m10 * b.m00 + a.m11 * b.m10 + a.m12 * b.m20,
   a.m10 * b.m01 + a.m11 * b.m11 + a.m12 * b.m21,
   a.m10 * b.m02 + a.m11 * b.m12 + a.m12 * b.m22,
   a.m20 * b.m00 + a.m21 * b.m10 + a.m22 * b.m20,
   a.m20 * b.m01 + a.m21 * b.m11 + a.m22 * b.m21,
   a.m20 * b.m02 + a.m21 * b.m12 + a.m22 * b.m22⟩

def lerp (s e t : α) : α :=
  s + t * (e - s)

def lerp_matrix (a b : Mat3 α) (t : α) : Mat3 α :=
  ⟨lerp a.m00 b.m00 t, lerp a.m01 b.m01 t, lerp a.m02 b.m02 t,
   lerp a.m10 b.m10 t, lerp a.m11 b.m11 t, lerp a.m12 b.m12 t,
   lerp a.m20 b.m20 t, lerp a.m21 b.m21 t, lerp a.m22 b.m22 t⟩

def create_view_matrix (camera_x camera_y zoom : α) : Mat3 α :=
  combine_matrices (create_scale_matrix zoom zoom)
    (create_translation_matrix (-camera_x) (-camera_y))

/-! ## pygame.Rect model -/

/-- Python int(float): truncation toward zero (floor for nonnegative
values, ceiling for negative ones). -/
def pyInt (q : ℚ) : ℤ :=
  if 0 ≤ q then ⌊q⌋ else ⌈q⌉

/-- pygame.Rect: integer position and size. -/
structure IRect where
  x : ℤ
  y : ℤ
  w : ℤ
  h : ℤ
deriving DecidableEq

def IRect.left (r : IRect) : ℤ := r.x
def IRect.right (r : IRect) : ℤ := r.x + r.w
def IRect.top (r : IRect) : ℤ := r.y
def IRect.bottom (r : IRect) : ℤ := r.y + r.h

/-- Rect.colliderect: strict overlap test, exactly pygame's four
comparisons. -/
def colliderect (a b : IRect) : Bool :=
  (a.x < b.x + b.w) && (a.y < b.y + b.h) && (b.x < a.x + a.w) && (b.y < a.y + a.h)

/-- Rect construction from (possibly fractional) values, truncating each
component toward zero as pygame does. -/
def mkRect (x y w h : ℚ) : IRect :=
  ⟨pyInt x, pyInt y, pyInt w, pyInt h⟩

/-! ## Ball (src/main.py lines 385-455) -/

inductive PowerType
  | grow
  | shrink
deriving DecidableEq

structure Ball where
  original_pos : ℚ × ℚ
  pos : ℚ × ℚ
  velocity : ℚ × ℚ
  base_radius : ℚ
  radius : ℚ
  on_ground : Bool
  scale_factor : ℚ
  scale_timer : ℤ
  rotation : ℚ
  lives : ℤ
  gravity : ℚ
  jump_force : ℚ
  move_speed : ℚ
  friction : ℚ
deriving DecidableEq

def Ball.init (x y : ℚ) : Ball :=
  { original_pos := (x, y)
    pos := (x, y)
    velocity := (0, 0)
    base_radius := 15
    radius := 15
    on_ground := false
    scale_factor := 1.0
    scale_timer := 0
    rotation := 0
    lives := 2
    gravity := 0.5
    jump_force := -12
    move_speed := 5
    friction := 0.8 }

/-- Ball.apply_powerup: the 'grow' branch; any other power type takes the
else (shrink) branch, and only 'shrink' occurs in the game. -/
def Ball.apply_powerup (b : Ball) (power_type : PowerType) : Ball :=
  match power_type with
  | .grow =>
      { b with scale_factor := 2.0
               lives := if b.lives < 2 then b.lives + 1 else b.lives
               scale_timer := 300 }
  | .shrink =>
      { b with scale_factor := 0.5
               lives := b.lives - 1
               scale_timer := 300 }

/-- Ball.update: timer countdown, transform-based radius recomputation,
gravity, friction, cosmetic rotation, Euler position step, ground reset. -/
def Ball.update (b : Ball) : Ball :=
  let scale_timer' := if 0 < b.scale_timer then b.scale_timer - 1 else b.scale_timer
  let scale_factor' :=
    if 0 < b.scale_timer ∧ scale_timer' = 0 then 1.0 else b.scale_factor
  let scale_matrix := create_scale_matrix scale_factor' scale_factor'
  let scaled_radius_point := apply_transformation scale_matrix (b.base_radius, 0)
  let radius' := |scaled_radius_point.1|
  let vy := if b.on_ground then b.velocity.2 else b.velocity.2 + b.gravity
  let vx := b.velocity.1 * b.friction
  let rotation' := if 0.1 < |vx| then b.rotation + vx * 0.1 else b.rotation
  let translation_matrix := create_translation_matrix vx vy
  let pos' := apply_transformation translation_matrix b.pos
  { b with scale_timer := scale_timer'
           scale_factor := scale_factor'
           radius := radius'
           velocity := (vx, vy)
           rotation := rotation'
           pos := pos'
           on_ground := false }

/-- The ball's bounding rect, as built at the top of
handle_platform_collision and of Game.check_collisions. -/
def ballRect (b : Ball) : IRect :=
  mkRect (b.pos.1 - b.radius) (b.pos.2 - b.radius) (b.radius * 2) (b.radius * 2)

/-! ## Platforms as seen by the collision pass

A platform is either a static Platform (no velocity attribute, never a
MovingPlatform instance) or a MovingPlatform carrying its move_type and
its last-frame displacement. -/

inductive MoveType
  | horizontal
  | vertical
  | circular
deriving DecidableEq

inductive PlatU
  | static (rect : IRect)
  | moving (rect : IRect) (move_type : MoveType) (velocity : ℚ × ℚ)
deriving DecidableEq

def PlatU.rect : PlatU → IRect
  | .static r => r
  | .moving r _ _ => r

/-- The directional-overlap elif chain of handle_platform_collision
(src/main.py lines 471-523): from the current ball state, resolve one
colliding platform, yielding (pos, velocity, on_ground). -/
def resolveCollision (b : Ball) (p : PlatU) : (ℚ × ℚ) × (ℚ × ℚ) × Bool :=
  let platform_velocity : ℚ × ℚ :=
    match p with
    | .static _ => (0, 0)
    | .moving _ _ v => v
  let overlap_left := (b.pos.1 + b.radius) - (p.rect.left : ℚ)
  let overlap_right := (p.rect.right : ℚ) - (b.pos.1 - b.radius)
  let overlap_top := (b.pos.2 + b.radius) - (p.rect.top : ℚ)
  let overlap_bottom := (p.rect.bottom : ℚ) - (b.pos.2 - b.radius)
  let min_overlap := min (min (min overlap_left overlap_right) overlap_top) overlap_bottom
  if min_overlap = overlap_top ∧ 0 ≤ b.velocity.2 then
    match p with
    | .static _ =>
        ((b.pos.1, (p.rect.top : ℚ) - b.radius), (b.velocity.1, 0), true)
    | .moving _ move_type _ =>
        let vx := b.velocity.1 + platform_velocity.1 * 0.8
        let vy := (0 : ℚ) + platform_velocity.2 * 0.8
        if move_type = .vertical then
          ((b.pos.1, (p.rect.top : ℚ) - b.radius), (vx, platform_velocity.2), true)
        else
          ((b.pos.1, (p.rect.top : ℚ) - b.radius), (vx, vy), true)
  else if min_overlap = overlap_bottom ∧ b.velocity.2 ≤ 0 then
    match p with
    | .static _ =>
        ((b.pos.1, (p.rect.bottom : ℚ) + b.radius), (b.velocity.1, 0), b.on_ground)
    | .moving _ _ _ =>
        ((b.pos.1, (p.rect.bottom : ℚ) + b.radius),
         (b.velocity.1, (0 : ℚ) + platform_velocity.2 * 0.5), b.on_ground)
  else if min_overlap = overlap_left ∧ 0 ≤ b.velocity.1 then
    match p with
    | .static _ =>
        (((p.rect.left : ℚ) - b.radius, b.pos.2), (0, b.velocity.2), b.on_ground)
    | .moving _ _ _ =>
        (((p.rect.left : ℚ) - b.radius, b.pos.2),
         ((0 : ℚ) + platform_velocity.1 * 0.3, b.velocity.2), b.on_ground)
  else if min_overlap = overlap_right ∧ b.velocity.1 ≤ 0 then
    match p with
    | .static _ =>
        (((p.rect.right : ℚ) + b.radius, b.pos.2), (0, b.velocity.2), b.on_ground)
    | .moving _ _ _ =>
        (((p.rect.right : ℚ) + b.radius, b.pos.2),
         ((0 : ℚ) + platform_velocity.1 * 0.3, b.velocity.2), b.on_ground)
  else
    (b.pos, b.velocity, b.on_ground)

/-- The additional check for fast-moving platforms (src/main.py lines
529-541), applied to the post-resolution position and velocity; it can
only override the velocity. -/
def fastCheck (b : Ball) (p : PlatU) (pos1 vel1 : ℚ × ℚ) : ℚ × ℚ :=
  match p with
  | .static _ => vel1
  | .moving _ move_type platform_velocity =>
      if 5 < |platform_velocity.1| ∨ 5 < |platform_velocity.2| then
        let next_pos := (pos1.1 + vel1.1, pos1.2 + vel1.2)
        let next_rect := mkRect (next_pos.1 - b.radius) (next_pos.2 - b.radius)
          (b.radius * 2) (b.radius * 2)
        if colliderect next_rect p.rect then
          if move_type = .vertical then (vel1.1, platform_velocity.2)
          else if move_type = .horizontal then (platform_velocity.1 * 0.8, vel1.2)
          else vel1
        else vel1
      else vel1

/-- One iteration of the platform loop in Ball.handle_platform_collision
(src/main.py lines 464-541).  The loop state is the ball together with
ball_rect, which is created once before the loop and reassigned (with
truncation) at the end of every colliding iteration. -/
def collideStep (s : Ball × IRect) (p : PlatU) : Ball × IRect :=
  if colliderect s.2 p.rect then
    let r := resolveCollision s.1 p
    ({ s.1 with pos := r.1
                velocity := fastCheck s.1 p r.1 r.2.1
                on_ground := r.2.2 },
     { s.2 with x := pyInt (r.1.1 - s.1.radius), y := pyInt (r.1.2 - s.1.radius) })
  else s

/-- Ball.handle_platform_collision.  The method mutates only the ball (and
its local ball_rect); the platform list is read, never written, which the
returned pair records explicitly. -/
def Ball.handle_platform_collision (b : Ball) (platforms : List PlatU) :
    Ball × List PlatU :=
  ((platforms.foldl collideStep (b, ballRect b)).1, platforms)

/-! ## Camera (src/main.py lines 7-97)

Camera.update samples random.uniform for the shake offset; the sampled
pair is passed in as an explicit argument (it is only consulted while the
shake timer is positive, exactly as in the source). -/

structure Camera where
  screen_width : ℚ
  screen_height : ℚ
  position : ℚ × ℚ
  target_position : ℚ × ℚ
  zoom : ℚ
  target_zoom : ℚ
  shake_intensity : ℚ
  shake_timer : ℤ
  position_lerp_speed : ℚ
  zoom_lerp_speed : ℚ
  min_x : ℚ
  max_x : ℚ
  view_matrix : Mat3 ℚ
  previous_matrix : Mat3 ℚ
deriving DecidableEq

def Camera.init (screen_width screen_height : ℚ) : Camera :=
  { screen_width := screen_width
    screen_height := screen_height
    position := (0, 0)
    target_position := (0, 0)
    zoom := 1.0
    target_zoom := 1.0
    shake_intensity := 0
    shake_timer := 0
    position_lerp_speed := 0.08
    zoom_lerp_speed := 0.05
    min_x := 0
    max_x := 2000
    view_matrix := create_view_matrix 0 0 1
    previous_matrix := create_view_matrix 0 0 1 }

def Camera.set_target (c : Camera) (target_x target_y : ℚ) : Camera :=
  let tx := target_x - c.screen_width / 2
  let ty := target_y - c.screen_height / 2
  { c with target_position := (max c.min_x (min tx c.max_x), max (-100) (min ty 100)) }

def Camera.set_zoom_target (c : Camera) (zoom : ℚ) : Camera :=
  { c with target_zoom := max 0.5 (min zoom 2.0) }

def Camera.add_screen_shake (c : Camera) (intensity : ℚ) (duration : ℤ) : Camera :=
  { c with shake_intensity := intensity, shake_timer := duration }

/-- Camera.update with the shake samples (shake_x, shake_y) supplied by
the caller; the source draws them from random.uniform(-intensity,
intensity) only when shake_timer > 0, otherwise the offset is zero. -/
def Camera.update (c : Camera) (shake_x shake_y : ℚ) : Camera :=
  let px := lerp c.position.1 c.target_position.1 c.position_lerp_speed
  let py := lerp c.position.2 c.target_position.2 c.position_lerp_speed
  let zoom' := lerp c.zoom c.target_zoom c.zoom_lerp_speed
  let shaking := 0 < c.shake_timer
  let shake_offset_x := if shaking then shake_x else 0
  let shake_offset_y := if shaking then shake_y else 0
  let shake_timer' := if shaking then c.shake_timer - 1 else c.shake_timer
  let shake_intensity' :=
    if shaking ∧ shake_timer' ≤ 0 then 0 else c.shake_intensity
  let final_x := px + shake_offset_x
  let final_y := py + shake_offset_y
  { c with previous_matrix := c.view_matrix
           position := (px, py)
           zoom := zoom'
           shake_timer := shake_timer'
           shake_intensity := shake_intensity'
           view_matrix := create_view_matrix final_x final_y zoom' }

def Camera.world_to_screen (c : Camera) (world_pos : ℚ × ℚ) : ℚ × ℚ :=
  apply_transformation c.view_matrix world_pos

def Camera.screen_to_world (c : Camera) (screen_pos : ℚ × ℚ) : ℚ × ℚ :=
  let inv_translation := create_translation_matrix c.position.1 c.position.2
  let inv_scaling := create_scale_matrix (1 / c.zoom) (1 / c.zoom)
  let inverse_view := combine_matrices inv_translation inv_scaling
  apply_transformation inverse_view screen_pos

def Camera.get_interpolated_matrix (c : Camera) (alpha : ℚ) : Mat3 ℚ :=
  lerp_matrix c.previous_matrix c.view_matrix alpha

/-- The sequences of camera calls quantified over in the zoom-safety
claim: set_zoom_target with an arbitrary argument, and update with
arbitrary shake samples. -/
inductive CamOp
  | setZoomTarget (z : ℚ)
  | update (shake_x shake_y : ℚ)

def applyCamOp (c : Camera) : CamOp → Camera
  | .setZoomTarget z => c.set_zoom_target z
  | .update sx sy => c.update sx sy

def runCamOps (c : Camera) (ops : List CamOp) : Camera :=
  ops.foldl applyCamOp c

/-- The inductive invariant behind the zoom clamp: zoom and target zoom
within [0.5, 2.0], and the blend rate within [0, 1] (it is 0.05). -/
def camZoomInv (c : Camera) : Prop :=
  (0.5 ≤ c.zoom ∧ c.zoom ≤ 2.0) ∧
  (0.5 ≤ c.target_zoom ∧ c.target_zoom ≤ 2.0) ∧
  (0 ≤ c.zoom_lerp_speed ∧ c.zoom_lerp_speed ≤ 1)

/-! ## MovingPlatform motion model (src/main.py lines 234-290), over ℝ

math.sin / math.cos force this component into the reals.  Integer
constructor arguments (width, height, distance) are kept as integers so
that Python's floor divisions width // 2 and distance // 2 are exact
(Int.fdiv). -/

noncomputable def create_rotation_matrix (angle : ℝ) : Mat3 ℝ :=
  ⟨Real.cos angle, -(Real.sin angle), 0,
   Real.sin angle, Real.cos angle, 0,
   0, 0, 1⟩

/-- Truncation toward zero of a real, as Python int() / pygame rect
assignment performs. -/
noncomputable def truncR (r : ℝ) : ℤ :=
  if 0 ≤ r then ⌊r⌋ else ⌈r⌉

structure MovingPlatformR where
  x : ℝ
  y : ℝ
  width : ℤ
  height : ℤ
  rect : IRect
  original_pos : ℝ × ℝ
  move_type : MoveType
  speed : ℝ
  distance : ℤ
  time : ℝ
  velocity : ℝ × ℝ
  center_x : ℝ
  center_y : ℝ
  radius : ℤ

noncomputable def MovingPlatformR.init (x y : ℝ) (width height : ℤ)
    (move_type : MoveType) (speed : ℝ) (distance : ℤ) : MovingPlatformR :=
  { x := x
    y := y
    width := width
    height := height
    rect := ⟨truncR x, truncR y, width, height⟩
    original_pos := (x, y)
    move_type := move_type
    speed := speed
    distance := distance
    time := 0
    velocity := (0, 0)
    center_x := x + ((width.fdiv 2 : ℤ) : ℝ)
    center_y := y + ((height.fdiv 2 : ℤ) : ℝ)
    radius := distance.fdiv 2 }

/-- The new position MovingPlatform.update computes for elapsed time t:
the body of the three-way if on move_type, which reads only
constructor-derived fields (original_pos, speed, distance, center_x,
center_y, radius, width, height), never the current position. -/
noncomputable def MovingPlatformR.newPos (p : MovingPlatformR) (t : ℝ) : ℝ × ℝ :=
  match p.move_type with
  | .horizontal =>
      let offset := Real.sin (t * p.speed) * (p.distance : ℝ)
      (p.original_pos.1 + offset, p.original_pos.2)
  | .vertical =>
      let offset := Real.sin (t * p.speed) * (p.distance : ℝ)
      (p.original_pos.1, p.original_pos.2 + offset)
  | .circular =>
      let angle := t * p.speed
      let rotation_matrix := create_rotation_matrix angle
      let rotated_point := apply_transformation rotation_matrix ((p.radius : ℝ), 0)
      (p.center_x + rotated_point.1 - ((p.width.fdiv 2 : ℤ) : ℝ),
       p.center_y + rotated_point.2 - ((p.height.fdiv 2 : ℤ) : ℝ))

/-- MovingPlatform.update: advance time by 0.02, compute the new
position, record velocity = new - old, then commit the new position
through a translation matrix applied to the old position. -/
noncomputable def MovingPlatformR.update (p : MovingPlatformR) : MovingPlatformR :=
  let time' := p.time + 0.02
  let new := p.newPos time'
  let velocity' := (new.1 - p.x, new.2 - p.y)
  let translation_matrix := create_translation_matrix (new.1 - p.x) (new.2 - p.y)
  let transformed_pos := apply_transformation translation_matrix (p.x, p.y)
  { p with time := time'
           velocity := velocity'
           x := transformed_pos.1
           y := transformed_pos.2
           rect := { p.rect with x := truncR transformed_pos.1
                                 y := truncR transformed_pos.2 } }

/-- The platform's own center convention, as set up in __init__
(center = position + (width // 2, height // 2)). -/
noncomputable def MovingPlatformR.centerPoint (p : MovingPlatformR) : ℝ × ℝ :=
  (p.x + ((p.width.fdiv 2 : ℤ) : ℝ), p.y + ((p.height.fdiv 2 : ℤ) : ℝ))

/-- Euclidean distance in the plane. -/
noncomputable def dist2 (a b : ℝ × ℝ) : ℝ :=
  Real.sqrt ((a.1 - b.1) ^ 2 + (a.2 - b.2) ^ 2)

/-! ## Session layer: collectibles, levels, Game
(src/main.py lines 168-231, 325-333, 564-801, 848-894), over ℚ -/

/-- Python floor division a // b (the game's call sites pass integers,
where // is integer floor division). -/
def pyFloorDiv (a b : ℚ) : ℚ :=
  ((⌊a / b⌋ : ℤ) : ℚ)

structure PlatformS where
  x : ℚ
  y : ℚ
  width : ℚ
  height : ℚ
  rect : IRect
deriving DecidableEq

def PlatformS.init (x y width height : ℚ) : PlatformS :=
  { x := x, y := y, width := width, height := height, rect := mkRect x y width height }

/-- The rational-valued MovingPlatform state as the session stores it
(creation and collision reads; the trigonometric update lives in
MovingPlatformR above). -/
structure MovingPlatformQ where
  x : ℚ
  y : ℚ
  width : ℚ
  height : ℚ
  rect : IRect
  original_pos : ℚ × ℚ
  move_type : MoveType
  speed : ℚ
  distance : ℚ
  time : ℚ
  velocity : ℚ × ℚ
  center_x : ℚ
  center_y : ℚ
  radius : ℚ
deriving DecidableEq

def MovingPlatformQ.init (x y width height : ℚ) (move_type : MoveType)
    (speed distance : ℚ) : MovingPlatformQ :=
  { x := x
    y := y
    width := width
    height := height
    rect := mkRect x y width height
    original_pos := (x, y)
    move_type := move_type
    speed := speed
    distance := distance
    time := 0
    velocity := (0, 0)
    center_x := x + pyFloorDiv width 2
    center_y := y + pyFloorDiv height 2
    radius := pyFloorDiv distance 2 }

def PlatformS.toPlatU (p : PlatformS) : PlatU :=
  .static p.rect

def MovingPlatformQ.toPlatU (p : MovingPlatformQ) : PlatU :=
  .moving p.rect p.move_type p.velocity

structure Coin where
  x : ℚ
  y : ℚ
  radius : ℚ
  collected : Bool
  rotation : ℚ
deriving DecidableEq

def Coin.init (x y : ℚ) : Coin :=
  { x := x, y := y, radius := 10, collected := false, rotation := 0 }

structure PowerUpE where
  x : ℚ
  y : ℚ
  power_type : PowerType
  width : ℚ
  height : ℚ
  collected : Bool
deriving DecidableEq

def PowerUpE.init (x y : ℚ) (power_type : PowerType) : PowerUpE :=
  { x := x, y := y, power_type := power_type, width := 20, height := 20, collected := false }

structure FlagS where
  x : ℚ
  y : ℚ
  pole_height : ℚ
  flag_width : ℚ
  flag_height : ℚ
  wave_time : ℚ
  collected : Bool
deriving DecidableEq

def FlagS.init (x y : ℚ) : FlagS :=
  { x := x, y := y, pole_height := 100, flag_width := 60, flag_height := 40
    wave_time := 0, collected := false }

structure Game where
  width : ℚ
  height : ℚ
  current_level : ℤ
  max_level : ℤ
  ball : Ball
  platforms : List PlatformS
  moving_platforms : List MovingPlatformQ
  coins : List Coin
  powerups : List PowerUpE
  flag : FlagS
  camera : Camera
  score : ℤ
  level_complete : Bool
deriving DecidableEq

def Game.all_platforms (g : Game) : List PlatU :=
  g.platforms.map PlatformS.toPlatU ++ g.moving_platforms.map MovingPlatformQ.toPlatU

def create_platforms (level : ℤ) : List PlatformS :=
  if level = 1 then
    [PlatformS.init 0 550 200 50,
     PlatformS.init 250 450 150 20,
     PlatformS.init 450 350 100 20,
     PlatformS.init 600 250 120 20,
     PlatformS.init 1150 200 150 20,
     PlatformS.init 1350 350 100 20,
     PlatformS.init 1750 500 150 50]
  else if level = 2 then
    [PlatformS.init 0 550 200 50,
     PlatformS.init 300 450 150 20,
     PlatformS.init 500 350 60 20,
     PlatformS.init 580 350 60 20,
     PlatformS.init 700 250 120 20,
     PlatformS.init 900 350 50 20,
     PlatformS.init 580 350 50 20,
     PlatformS.init 1100 450 150 20,
     PlatformS.init 1300 350 40 20,
     PlatformS.init 1360 350 40 20,
     PlatformS.init 1500 250 120 20,
     PlatformS.init 1700 350 100 20,
     PlatformS.init 1850 500 150 50]
  else
    [PlatformS.init 0 550 200 50,
     PlatformS.init 250 450 150 20,
     PlatformS.init 450 350 100 20,
     PlatformS.init 650 250 120 20,
     PlatformS.init 850 150 100 20,
     PlatformS.init 1050 250 120 20,
     PlatformS.init 1250 350 100 20,
     PlatformS.init 1450 450 150 20,
     PlatformS.init 1650 350 100 20,
     PlatformS.init 1850 500 150 50]

def create_moving_platforms (level : ℤ) : List MovingPlatformQ :=
  if level = 1 then
    [MovingPlatformQ.init 800 400 100 20 .horizontal 1.5 80,
     MovingPlatformQ.init 950 300 80 20 .vertical 1.0 60,
     MovingPlatformQ.init 1500 300 90 20 .circular 0.8 100,
     MovingPlatformQ.init 1600 450 100 20 .horizontal 2.0 120]
  else if level = 2 then
    [MovingPlatformQ.init 400 400 100 20 .vertical 1.0 80,
     MovingPlatformQ.init 600 300 80 20 .horizontal 1.0 60,
     MovingPlatformQ.init 800 200 90 20 .circular 0.8 100,
     MovingPlatformQ.init 1200 400 100 20 .vertical 1.0 120,
     MovingPlatformQ.init 1400 300 80 20 .horizontal 1.0 80]
  else
    [MovingPlatformQ.init 350 400 100 20 .circular 1.5 80,
     MovingPlatformQ.init 550 300 80 20 .vertical 1.0 60,
     MovingPlatformQ.init 750 200 90 20 .horizontal 0.8 100,
     MovingPlatformQ.init 1150 300 100 20 .circular 2.0 120,
     MovingPlatformQ.init 1350 400 80 20 .vertical 1.5 80,
     MovingPlatformQ.init 1550 300 90 20 .horizontal 1.0 60]

def create_coins (level : ℤ) : List Coin :=
  if level = 1 then
    [Coin.init 320 410, Coin.init 500 310, Coin.init 660 210,
     Coin.init 850 360, Coin.init 950 260, Coin.init 1220 160,
     Coin.init 1400 310, Coin.init 1550 260, Coin.init 1820 460]
  else if level = 2 then
    [Coin.init 350 410, Coin.init 550 310, Coin.init 750 210,
     Coin.init 950 310, Coin.init 1150 410, Coin.init 1350 310,
     Coin.init 1550 210, Coin.init 1750 310, Coin.init 1900 460]
  else
    [Coin.init 300 410, Coin.init 500 310, Coin.init 700 210,
     Coin.init 900 110, Coin.init 1100 210, Coin.init 1300 310,
     Coin.init 1500 410, Coin.init 1700 310, Coin.init 1900 460]

def create_powerups (level : ℤ) : List PowerUpE :=
  if level = 1 then
    [PowerUpE.init 300 430 .shrink,
     PowerUpE.init 650 230 .grow,
     PowerUpE.init 900 380 .shrink,
     PowerUpE.init 1200 180 .grow,
     PowerUpE.init 1450 330 .shrink]
  else if level = 2 then
    [PowerUpE.init 450 330 .shrink,
     PowerUpE.init 850 330 .shrink,
     PowerUpE.init 1250 330 .shrink,
     PowerUpE.init 1000 430 .grow,
     PowerUpE.init 1600 430 .grow]
  else
    [PowerUpE.init 300 430 .grow,
     PowerUpE.init 600 330 .shrink,
     PowerUpE.init 900 130 .grow,
     PowerUpE.init 1200 230 .shrink,
     PowerUpE.init 1500 430 .grow,
     PowerUpE.init 1800 330 .shrink]

/-- Game.reset_level: recreate the ball, every entity collection, the
flag, the camera, and zero the score. -/
def Game.reset_level (g : Game) : Game :=
  { g with ball := Ball.init 100 400
           platforms := create_platforms g.current_level
           moving_platforms := create_moving_platforms g.current_level
           coins := create_coins g.current_level
           powerups := create_powerups g.current_level
           flag := FlagS.init 1850 450
           camera := Camera.init g.width g.height
           score := 0
           level_complete := false }

/-- Game.__init__: level 1 of 3 on a 1000 x 600 screen, then reset_level. -/
def Game.init : Game :=
  Game.reset_level
    { width := 1000
      height := 600
      current_level := 1
      max_level := 3
      ball := Ball.init 100 400
      platforms := []
      moving_platforms := []
      coins := []
      powerups := []
      flag := FlagS.init 1850 450
      camera := Camera.init 1000 600
      score := 0
      level_complete := false }

def coinRect (c : Coin) : IRect :=
  mkRect (c.x - c.radius) (c.y - c.radius) (c.radius * 2) (c.radius * 2)

def powerupRect (p : PowerUpE) : IRect :=
  mkRect p.x p.y p.width p.height

def flagRect (f : FlagS) : IRect :=
  mkRect (f.x - 10) (f.y - f.pole_height) (f.flag_width + 20) (f.pole_height + 20)

/-- One iteration of the coin loop of Game.check_collisions; the state is
(coins so far, score, camera). -/
def coinStep (ball_rect : IRect) (s : List Coin × ℤ × Camera) (c : Coin) :
    List Coin × ℤ × Camera :=
  if ¬c.collected ∧ colliderect ball_rect (coinRect c) then
    (s.1 ++ [{ c with collected := true }], s.2.1 + 10, s.2.2.add_screen_shake 1 5)
  else
    (s.1 ++ [c], s.2.1, s.2.2)

/-- One iteration of the powerup loop of Game.check_collisions; the state
is (powerups so far, ball, camera). -/
def powerupStep (ball_rect : IRect) (s : List PowerUpE × Ball × Camera)
    (p : PowerUpE) : List PowerUpE × Ball × Camera :=
  if ¬p.collected ∧ colliderect ball_rect (powerupRect p) then
    (s.1 ++ [{ p with collected := true }],
     s.2.1.apply_powerup p.power_type,
     s.2.2.add_screen_shake 2 8)
  else
    (s.1 ++ [p], s.2.1, s.2.2)

/-- Game.check_collisions: coins, then powerups, then the flag (which
advances and resets the level when one remains). -/
def Game.check_collisions (g : Game) : Game :=
  let ball_rect := ballRect g.ball
  let cs := g.coins.foldl (coinStep ball_rect) ([], g.score, g.camera)
  let ps := g.powerups.foldl (powerupStep ball_rect) ([], g.ball, cs.2.2)
  let g1 := { g with coins := cs.1, score := cs.2.1
                     powerups := ps.1, ball := ps.2.1, camera := ps.2.2 }
  if ¬g1.flag.collected ∧ colliderect ball_rect (flagRect g1.flag) then
    let g2 := { g1 with flag := { g1.flag with collected := true }
                        level_complete := true
                        score := g1.score + 100
                        camera := g1.camera.add_screen_shake 5 30 }
    if g2.current_level < g2.max_level then
      let g3 := Game.reset_level { g2 with current_level := g2.current_level + 1 }
      { g3 with level_complete := false
                camera := g3.camera.add_screen_shake 8 45 }
    else g2
  else g1

/-- The fall-off-the-playfield branch at the end of Game.run's frame
(src/main.py lines 887-894): respawn, lose a life, and fully reset when
no lives remain. -/
def Game.fall_check (g : Game) : Game :=
  if (g.height : ℚ) + 100 < g.ball.pos.2 then
    let ball' := { g.ball with pos := g.ball.original_pos
                               velocity := (0, 0)
                               lives := g.ball.lives - 1 }
    if ball'.lives ≤ 0 then
      let g1 := Game.reset_level { g with ball := ball', score := 0 }
      { g1 with camera := g1.camera.add_screen_shake 10 60 }
    else
      { g with ball := ball' }
  else g

/-- The KEYDOWN branch of Game.run's event loop (src/main.py lines
855-863): the restart key, or - only here - the lives-exhausted reset. -/
def Game.keydown (g : Game) (key_is_r : Bool) : Game :=
  if key_is_r ∧ g.level_complete ∧ g.current_level = g.max_level then
    Game.reset_level { g with current_level := 1 }
  else if g.ball.lives ≤ 0 then
    let g1 := Game.reset_level { g with score := 0 }
    { g1 with camera := g1.camera.add_screen_shake 10 60 }
  else g

/-- The shake offset pair that Camera.update applies: the sampled values
while the shake timer is positive, (0, 0) otherwise. -/
def shakeOffset (c : Camera) (shake_x shake_y : ℚ) : ℚ × ℚ :=
  if 0 < c.shake_timer then (shake_x, shake_y) else (0, 0)

/-! ## Concrete instances used by witnesses and counterexamples -/

/-- A ball standing just above the level-1 ground platform, about to land. -/
def ballLanding : Ball :=
  { Ball.init 100 400 with pos := (100, 540) }

/-- The level-1 ground platform (0, 550, 200, 50). -/
def groundRect : IRect :=
  ⟨0, 550, 200, 50⟩

/-- A mid-level state: the avatar, already shrunk twice (both earlier
shrink power-ups of level 1 collected, lives down to 0, one coin's worth
of score), sits on the third shrink power-up at (1450, 330). -/
def gShrink : Game :=
  { Game.init with
      score := 10
      powerups :=
        [{ PowerUpE.init 300 430 .shrink with collected := true },
         PowerUpE.init 650 230 .grow,
         { PowerUpE.init 900 380 .shrink with collected := true },
         PowerUpE.init 1200 180 .grow,
         PowerUpE.init 1450 330 .shrink]
      ball :=
        { Ball.init 100 400 with
            pos := (1460, 340)
            radius := 7.5
            scale_factor := 0.5
            scale_timer := 200
            lives := 0 } }

/-- The first circular moving platform of level 1 (1500, 300, 90, 20,
speed 0.8, distance 100). -/
noncomputable def circPlat : MovingPlatformR :=
  MovingPlatformR.init 1500 300 90 20 .circular 0.8 100

/-- A state whose avatar overlaps the flag's trigger region of level 1. -/
def gAtFlag : Game :=
  { Game.init with ball := { Ball.init 100 400 with pos := (1850, 400) } }

/-- A state whose avatar has fallen below the playfield with one life
left. -/
def gFalling : Game :=
  { Game.init with
      score := 40
      ball := { Ball.init 100 400 with pos := (500, 800), lives := 1 } }

/-! ## Theorems -/

/-- When the top overlap is (weakly) the smallest of the four and the
ball is not moving upward, the elif chain takes the landing branch; for a
static platform that yields the clamped position, zero vertical velocity,
and the ground flag. -/
theorem resolveCollision_static_top (b : Ball) (R : IRect)
    (hL : (b.pos.2 + b.radius) - (R.top : ℚ) ≤ (b.pos.1 + b.radius) - (R.left : ℚ))
    (hR : (b.pos.2 + b.radius) - (R.top : ℚ) ≤ (R.right : ℚ) - (b.pos.1 - b.radius))
    (hB : (b.pos.2 + b.radius) - (R.top : ℚ) ≤ (R.bottom : ℚ) - (b.pos.2 - b.radius))
    (hvy : 0 ≤ b.velocity.2) :
    resolveCollision b (.static R) =
      ((b.pos.1, (R.top : ℚ) - b.radius), (b.velocity.1, 0), true) := by
  have hmin :
      min (min (min ((b.pos.1 + b.radius) - (R.left : ℚ)) ((R.right : ℚ) - (b.pos.1 - b.radius)))
        ((b.pos.2 + b.radius) - (R.top : ℚ))) ((R.bottom : ℚ) - (b.pos.2 - b.radius)) =
      (b.pos.2 + b.radius) - (R.top : ℚ) := by
    rw [min_eq_right (le_min hL hR), min_eq_left hB]
  simp only [resolveCollision, PlatU.rect]
  rw [if_pos ⟨hmin, hvy⟩]

/-- C1: if the ball's bounding square overlaps a static platform's
rectangle, the top overlap is the minimum of the four directional
overlaps, and the vertical velocity is nonnegative, then the collision
pass ends grounded, with zero vertical velocity, and with the ball's
bottom resting exactly on the platform's top. -/
theorem landing_on_static_platform (b : Ball) (R : IRect)
    (hcol : colliderect (ballRect b) R = true)
    (hL : (b.pos.2 + b.radius) - (R.top : ℚ) ≤ (b.pos.1 + b.radius) - (R.left : ℚ))
    (hR : (b.pos.2 + b.radius) - (R.top : ℚ) ≤ (R.right : ℚ) - (b.pos.1 - b.radius))
    (hB : (b.pos.2 + b.radius) - (R.top : ℚ) ≤ (R.bottom : ℚ) - (b.pos.2 - b.radius))
    (hvy : 0 ≤ b.velocity.2) :
    (Ball.handle_platform_collision b [PlatU.static R]).1.on_ground = true ∧
    (Ball.handle_platform_collision b [PlatU.static R]).1.velocity.2 = 0 ∧
    (Ball.handle_platform_collision b [PlatU.static R]).1.pos.2 = (R.top : ℚ) - b.radius := by
  have hres := resolveCollision_static_top b R hL hR hB hvy
  simp only [Ball.handle_platform_collision, List.foldl, collideStep, PlatU.rect,
    Prod.fst, Prod.snd, hcol, if_true, hres, fastCheck]
  exact ⟨trivial, trivial, trivial⟩

/-- Witness for the landing theorem: the ball of ballLanding (radius 15
at (100, 540), at rest) meets groundRect (top edge y = 550) with the top
overlap minimal, and the pass lands it at y = 535. -/
theorem landing_on_static_platform_witness :
    (Ball.handle_platform_collision ballLanding [PlatU.static groundRect]).1.on_ground = true ∧
    (Ball.handle_platform_collision ballLanding [PlatU.static groundRect]).1.velocity.2 = 0 ∧
    (Ball.handle_platform_collision ballLanding
      [PlatU.static groundRect]).1.pos.2 = (groundRect.top : ℚ) - ballLanding.radius :=
  landing_on_static_platform ballLanding groundRect
    (by norm_num [ballLanding, groundRect, Ball.init, ballRect, mkRect, pyInt, colliderect,
      IRect.left, IRect.right, IRect.top, IRect.bottom])
    (by norm_num [ballLanding, groundRect, Ball.init,
      IRect.left, IRect.right, IRect.top, IRect.bottom])
    (by norm_num [ballLanding, groundRect, Ball.init,
      IRect.left, IRect.right, IRect.top, IRect.bottom])
    (by norm_num [ballLanding, groundRect, Ball.init,
      IRect.left, IRect.right, IRect.top, IRect.bottom])
    (by norm_num [ballLanding, Ball.init])

/-- One collision-loop iteration writes only pos, velocity and on_ground
on the ball. -/
theorem collideStep_frame (s : Ball × IRect) (p : PlatU) :
    (collideStep s p).1.lives = s.1.lives ∧
    (collideStep s p).1.radius = s.1.radius ∧
    (collideStep s p).1.base_radius = s.1.base_radius ∧
    (collideStep s p).1.scale_factor = s.1.scale_factor ∧
    (collideStep s p).1.scale_timer = s.1.scale_timer ∧
    (collideStep s p).1.rotation = s.1.rotation ∧
    (collideStep s p).1.original_pos = s.1.original_pos := by
  unfold collideStep
  split
  · exact ⟨rfl, rfl, rfl, rfl, rfl, rfl, rfl⟩
  · exact ⟨rfl, rfl, rfl, rfl, rfl, rfl, rfl⟩

/-- The whole platform loop writes only pos, velocity and on_ground. -/
theorem foldl_collideStep_frame (platforms : List PlatU) :
    ∀ s : Ball × IRect,
      (platforms.foldl collideStep s).1.lives = s.1.lives ∧
      (platforms.foldl collideStep s).1.radius = s.1.radius ∧
      (platforms.foldl collideStep s).1.base_radius = s.1.base_radius ∧
      (platforms.foldl collideStep s).1.scale_factor = s.1.scale_factor ∧
      (platforms.foldl collideStep s).1.scale_timer = s.1.scale_timer ∧
      (platforms.foldl collideStep s).1.rotation = s.1.rotation ∧
      (platforms.foldl collideStep s).1.original_pos = s.1.original_pos := by
  induction platforms with
  | nil =>
      intro s
      exact ⟨rfl, rfl, rfl, rfl, rfl, rfl, rfl⟩
  | cons p ps ih =>
      intro s
      have h1 := collideStep_frame s p
      have h2 := ih (collideStep s p)
      simp only [List.foldl_cons]
      exact ⟨h2.1.trans h1.1,
             h2.2.1.trans h1.2.1,
             h2.2.2.1.trans h1.2.2.1,
             h2.2.2.2.1.trans h1.2.2.2.1,
             h2.2.2.2.2.1.trans h1.2.2.2.2.1,
             h2.2.2.2.2.2.1.trans h1.2.2.2.2.2.1,
             h2.2.2.2.2.2.2.trans h1.2.2.2.2.2.2⟩

/-- C10: handle_platform_collision mutates only the avatar's position,
velocity and on-ground flag; its lives, radius, base_radius,
scale_factor, scale_timer and rotation, and the platform list itself, are
unchanged by the call. -/
theorem handle_platform_collision_frame_effect (b : Ball) (platforms : List PlatU) :
    (Ball.handle_platform_collision b platforms).2 = platforms ∧
    (Ball.handle_platform_collision b platforms).1.lives = b.lives ∧
    (Ball.handle_platform_collision b platforms).1.radius = b.radius ∧
    (Ball.handle_platform_collision b platforms).1.base_radius = b.base_radius ∧
    (Ball.handle_platform_collision b platforms).1.scale_factor = b.scale_factor ∧
    (Ball.handle_platform_collision b platforms).1.scale_timer = b.scale_timer ∧
    (Ball.handle_platform_collision b platforms).1.rotation = b.rotation ∧
    (Ball.handle_platform_collision b platforms).1.original_pos = b.original_pos := by
  have h := foldl_collideStep_frame platforms (b, ballRect b)
  exact ⟨rfl, h.1, h.2.1, h.2.2.1, h.2.2.2.1, h.2.2.2.2.1, h.2.2.2.2.2.1, h.2.2.2.2.2.2⟩

/-- C6: grow sets the scale factor to 2.0 and adds a life exactly when
lives < 2 (so lives stays at most the starting maximum 2); shrink sets
the scale factor to 0.5 and deducts a life; both set the timer to 300. -/
theorem apply_powerup_spec (b : Ball) :
    (b.apply_powerup .grow).scale_factor = 2.0 ∧
    (b.apply_powerup .grow).scale_timer = 300 ∧
    (b.apply_powerup .grow).lives = (if b.lives < 2 then b.lives + 1 else b.lives) ∧
    (b.lives ≤ 2 → (b.apply_powerup .grow).lives ≤ 2) ∧
    (b.apply_powerup .shrink).scale_factor = 0.5 ∧
    (b.apply_powerup .shrink).scale_timer = 300 ∧
    (b.apply_powerup .shrink).lives = b.lives - 1 := by
  refine ⟨rfl, rfl, rfl, ?_, rfl, rfl, rfl⟩
  intro h
  simp only [Ball.apply_powerup]
  split <;> omega

/-- Witness for the grow cap: starting from the fresh ball (lives = 2),
grow leaves lives at most 2. -/
theorem apply_powerup_spec_witness :
    ((Ball.init 100 400).apply_powerup .grow).lives ≤ 2 :=
  (apply_powerup_spec (Ball.init 100 400)).2.2.2.1 (by norm_num [Ball.init])

theorem update_radius_abs (b : Ball) :
    (Ball.update b).radius = |b.base_radius * (Ball.update b).scale_factor| := by
  simp only [Ball.update, apply_transformation, create_scale_matrix]
  congr 1
  ring

theorem update_scale_factor_nonneg (b : Ball) (hsf : 0 ≤ b.scale_factor) :
    0 ≤ (Ball.update b).scale_factor := by
  simp only [Ball.update]
  split_ifs <;> first | exact hsf | norm_num

theorem update_scale_run (n : ℕ) : ∀ b : Ball, b.scale_timer = (n : ℤ) + 1 →
    (Ball.update^[n + 1] b).scale_factor = 1.0 ∧
    (Ball.update^[n + 1] b).scale_timer = 0 ∧
    (Ball.update^[n + 1] b).radius = |b.base_radius| ∧
    (Ball.update^[n + 1] b).base_radius = b.base_radius := by
  induction n with
  | zero =>
      intro b hb
      norm_num at hb
      norm_num [Function.iterate_one, Ball.update, hb, apply_transformation,
        create_scale_matrix]
  | succ n ih =>
      intro b hb
      have hb2 : (Ball.update b).scale_timer = (n : ℤ) + 1 := by
        simp only [Ball.update, hb]
        rw [if_pos (by positivity)]
        push_cast
        ring
      have hbase : (Ball.update b).base_radius = b.base_radius := rfl
      have h := ih (Ball.update b) hb2
      rw [Function.iterate_succ_apply]
      rw [hbase] at h
      exact h

/-- C7: after grow (scale 2.0, timer 300) and 300 updates with no
further power-ups, the scale factor is exactly 1.0 and the radius is
exactly the base radius; and each frame the absolute value of the
scale-matrix image of [base_radius, 0] equals plain multiplication
base_radius * scale_factor. -/
theorem grow_timer_expiry (b : Ball) (hbase : 0 ≤ b.base_radius)
    (hsf : 0 ≤ b.scale_factor) :
    (Ball.update^[300] (b.apply_powerup .grow)).scale_factor = 1.0 ∧
    (Ball.update^[300] (b.apply_powerup .grow)).radius = b.base_radius ∧
    (Ball.update b).radius = b.base_radius * (Ball.update b).scale_factor := by
  have h := update_scale_run 299 (b.apply_powerup .grow) (by norm_num [Ball.apply_powerup])
  have e : (299 : ℕ) + 1 = 300 := by norm_num
  rw [e] at h
  refine ⟨h.1, ?_, ?_⟩
  · have hb2 : (b.apply_powerup .grow).base_radius = b.base_radius := rfl
    rw [h.2.2.1, hb2, abs_of_nonneg hbase]
  · rw [update_radius_abs b,
      abs_of_nonneg (mul_nonneg hbase (update_scale_factor_nonneg b hsf))]

/-- Witness: the fresh ball (base radius 15, scale 1.0), grown and run
for 300 frames. -/
theorem grow_timer_expiry_witness :
    (Ball.update^[300] ((Ball.init 100 400).apply_powerup .grow)).scale_factor = 1.0 ∧
    (Ball.update^[300] ((Ball.init 100 400).apply_powerup .grow)).radius =
      (Ball.init 100 400).base_radius ∧
    (Ball.update (Ball.init 100 400)).radius =
      (Ball.init 100 400).base_radius * (Ball.update (Ball.init 100 400)).scale_factor :=
  grow_timer_expiry (Ball.init 100 400) (by norm_num [Ball.init]) (by norm_num [Ball.init])

theorem newPos_ignores_position (p : MovingPlatformR) (x2 y2 t : ℝ) :
    ({ p with x := x2, y := y2 } : MovingPlatformR).newPos t = p.newPos t := rfl

theorem update_commits_newPos (p : MovingPlatformR) :
    ((p.update).x, (p.update).y) = p.newPos (p.time + 0.02) := by
  simp only [MovingPlatformR.update, apply_transformation, create_translation_matrix]
  rw [Prod.ext_iff]
  constructor <;> dsimp only <;> ring

/-- C3: update records velocity as exactly the committed position minus
the previous position; the committed position equals the pure function
newPos of accumulated time and constructor parameters, so the
translation-matrix commit is equivalent to direct assignment; update
leaves every constructor-derived field unchanged; and the committed
position does not depend on the previous position. -/
theorem moving_platform_update_spec (p : MovingPlatformR) :
    ((p.update).x, (p.update).y) = p.newPos (p.time + 0.02) ∧
    (p.update).velocity = ((p.update).x - p.x, (p.update).y - p.y) ∧
    (p.update).time = p.time + 0.02 ∧
    ((p.update).original_pos = p.original_pos ∧ (p.update).move_type = p.move_type ∧
     (p.update).speed = p.speed ∧ (p.update).distance = p.distance ∧
     (p.update).center_x = p.center_x ∧ (p.update).center_y = p.center_y ∧
     (p.update).width = p.width ∧ (p.update).height = p.height ∧
     (p.update).radius = p.radius) ∧
    ∀ x2 y2 : ℝ,
      ((({ p with x := x2, y := y2 } : MovingPlatformR).update).x,
       (({ p with x := x2, y := y2 } : MovingPlatformR).update).y) =
      ((p.update).x, (p.update).y) := by
  refine ⟨update_commits_newPos p, ?_, rfl,
    ⟨rfl, rfl, rfl, rfl, rfl, rfl, rfl, rfl, rfl⟩, ?_⟩
  · have h := update_commits_newPos p
    rw [Prod.ext_iff] at h
    simp only [MovingPlatformR.update, apply_transformation, create_translation_matrix] at *
    rw [Prod.ext_iff]
    constructor <;> dsimp only <;> ring
  · intro x2 y2
    have h1 := update_commits_newPos ({ p with x := x2, y := y2 } : MovingPlatformR)
    have h2 := update_commits_newPos p
    rw [newPos_ignores_position] at h1
    rw [h1, h2]

/-- C8: a circular moving platform's center stays at distance exactly
|orbit radius| from its declared orbit center after every update. -/
theorem circular_orbit_distance (p : MovingPlatformR) (hc : p.move_type = .circular) :
    dist2 ((p.update).centerPoint) (p.center_x, p.center_y) = |(p.radius : ℝ)| := by
  have hx : (p.update).centerPoint.1 - p.center_x =
      Real.cos ((p.time + 0.02) * p.speed) * (p.radius : ℝ) := by
    have h1 : (p.update).x = (p.newPos (p.time + 0.02)).1 :=
      congrArg Prod.fst (update_commits_newPos p)
    simp only [MovingPlatformR.centerPoint]
    rw [show (p.update).width = p.width from rfl, h1]
    simp only [MovingPlatformR.newPos, hc, apply_transformation, create_rotation_matrix]
    ring
  have hy : (p.update).centerPoint.2 - p.center_y =
      Real.sin ((p.time + 0.02) * p.speed) * (p.radius : ℝ) := by
    have h2 : (p.update).y = (p.newPos (p.time + 0.02)).2 :=
      congrArg Prod.snd (update_commits_newPos p)
    simp only [MovingPlatformR.centerPoint]
    rw [show (p.update).height = p.height from rfl, h2]
    simp only [MovingPlatformR.newPos, hc, apply_transformation, create_rotation_matrix]
    ring
  have key : ((p.update).centerPoint.1 - p.center_x) ^ 2 +
      ((p.update).centerPoint.2 - p.center_y) ^ 2 = ((p.radius : ℝ)) ^ 2 := by
    rw [hx, hy]
    have hsc := Real.sin_sq_add_cos_sq ((p.time + 0.02) * p.speed)
    nlinarith [hsc]
  simp only [dist2]
  rw [key, Real.sqrt_sq_eq_abs]


/-- Witness: the level-1 circular platform, one update in. -/
theorem circular_orbit_distance_witness :
    dist2 ((circPlat.update).centerPoint) (circPlat.center_x, circPlat.center_y) =
      |(circPlat.radius : ℝ)| :=
  circular_orbit_distance circPlat rfl

theorem applyCamOp_zoom_inv (c : Camera) (op : CamOp) (h : camZoomInv c) :
    camZoomInv (applyCamOp c op) := by
  obtain ⟨⟨hz1, hz2⟩, ⟨ht1, ht2⟩, ⟨hs1, hs2⟩⟩ := h
  cases op with
  | setZoomTarget z =>
      refine ⟨⟨hz1, hz2⟩, ⟨le_max_left _ _, ?_⟩, hs1, hs2⟩
      exact max_le (by norm_num) (le_trans (min_le_right _ _) (by norm_num))
  | update sx sy =>
      refine ⟨⟨?_, ?_⟩, ⟨ht1, ht2⟩, hs1, hs2⟩ <;>
        simp only [applyCamOp, Camera.update, lerp] <;> nlinarith

theorem runCamOps_zoom_inv (ops : List CamOp) :
    ∀ c : Camera, camZoomInv c → camZoomInv (runCamOps c ops) := by
  induction ops with
  | nil => intro c h; exact h
  | cons op ops ih =>
      intro c h
      exact ih (applyCamOp c op) (applyCamOp_zoom_inv c op h)

/-- C5: set_zoom_target clamps its argument to [0.5, 2.0], and any
sequence of set_zoom_target and update calls keeps zoom within
[0.5, 2.0]; in particular the divisor zoom in screen_to_world is never
zero. -/
theorem zoom_always_clamped (w h : ℚ) (ops : List CamOp) :
    (0.5 ≤ (runCamOps (Camera.init w h) ops).zoom ∧
     (runCamOps (Camera.init w h) ops).zoom ≤ 2.0 ∧
     (runCamOps (Camera.init w h) ops).zoom ≠ 0) ∧
    ∀ (c : Camera) (z : ℚ),
      (c.set_zoom_target z).target_zoom = max 0.5 (min z 2.0) := by
  have hinv : camZoomInv (Camera.init w h) := by
    refine ⟨⟨?_, ?_⟩, ⟨?_, ?_⟩, ?_, ?_⟩ <;> norm_num [Camera.init]
  have h := runCamOps_zoom_inv ops (Camera.init w h) hinv
  obtain ⟨⟨hz1, hz2⟩, _, _⟩ := h
  refine ⟨⟨hz1, hz2, ?_⟩, fun c z => rfl⟩
  intro h0
  rw [h0] at hz1
  norm_num at hz1

/-- C4: screen_to_world is translation by +position composed with
scaling by 1/zoom (shake ignored); after an update the round trip
screen_to_world of world_to_screen of p equals p minus the shake offset
that update applied, so it is the identity exactly when that offset was
zero. -/
theorem camera_inverse_roundtrip (c : Camera) (sx sy : ℚ) (pt q : ℚ × ℚ)
    (hz : (c.update sx sy).zoom ≠ 0) :
    ((c.update sx sy).screen_to_world q =
      ((c.update sx sy).position.1 + q.1 / (c.update sx sy).zoom,
       (c.update sx sy).position.2 + q.2 / (c.update sx sy).zoom)) ∧
    ((c.update sx sy).screen_to_world ((c.update sx sy).world_to_screen pt) =
      (pt.1 - (shakeOffset c sx sy).1, pt.2 - (shakeOffset c sx sy).2)) ∧
    ((c.update sx sy).screen_to_world ((c.update sx sy).world_to_screen pt) = pt ↔
      shakeOffset c sx sy = (0, 0)) := by
  simp only [Camera.update, lerp] at hz
  have h1 : (c.update sx sy).screen_to_world q =
      ((c.update sx sy).position.1 + q.1 / (c.update sx sy).zoom,
       (c.update sx sy).position.2 + q.2 / (c.update sx sy).zoom) := by
    by_cases ht : 0 < c.shake_timer <;>
      (simp only [Camera.update, Camera.screen_to_world, shakeOffset, ht, if_true, if_false,
        create_view_matrix, combine_matrices, create_translation_matrix, create_scale_matrix,
        apply_transformation, lerp]
       rw [Prod.ext_iff]
       constructor <;> dsimp only <;> field_simp <;> ring)
  have h2 : (c.update sx sy).screen_to_world ((c.update sx sy).world_to_screen pt) =
      (pt.1 - (shakeOffset c sx sy).1, pt.2 - (shakeOffset c sx sy).2) := by
    by_cases ht : 0 < c.shake_timer <;>
      (simp only [Camera.update, Camera.screen_to_world, Camera.world_to_screen, shakeOffset,
        ht, if_true, if_false,
        create_view_matrix, combine_matrices, create_translation_matrix, create_scale_matrix,
        apply_transformation, lerp]
       rw [Prod.ext_iff]
       constructor <;> dsimp only <;> field_simp <;> ring)
  refine ⟨h1, h2, ?_⟩
  rw [h2]
  simp [Prod.ext_iff, sub_eq_self]


/-- Witness for the round-trip theorem: a freshly shaken camera (timer
10) updated with shake sample (2, -1) maps (7, 8) back to (5, 9). -/
theorem camera_inverse_roundtrip_witness :
    ((((Camera.init 1000 600).add_screen_shake 3 10).update 2 (-1)).screen_to_world (5, 6) =
      ((((Camera.init 1000 600).add_screen_shake 3 10).update 2 (-1)).position.1 +
        5 / (((Camera.init 1000 600).add_screen_shake 3 10).update 2 (-1)).zoom,
       (((Camera.init 1000 600).add_screen_shake 3 10).update 2 (-1)).position.2 +
        6 / (((Camera.init 1000 600).add_screen_shake 3 10).update 2 (-1)).zoom)) ∧
    ((((Camera.init 1000 600).add_screen_shake 3 10).update 2 (-1)).screen_to_world
        ((((Camera.init 1000 600).add_screen_shake 3 10).update 2 (-1)).world_to_screen (7, 8)) =
      ((7 : ℚ) - (shakeOffset ((Camera.init 1000 600).add_screen_shake 3 10) 2 (-1)).1,
       (8 : ℚ) - (shakeOffset ((Camera.init 1000 600).add_screen_shake 3 10) 2 (-1)).2)) ∧
    ((((Camera.init 1000 600).add_screen_shake 3 10).update 2 (-1)).screen_to_world
        ((((Camera.init 1000 600).add_screen_shake 3 10).update 2 (-1)).world_to_screen (7, 8)) =
        (7, 8) ↔
      shakeOffset ((Camera.init 1000 600).add_screen_shake 3 10) 2 (-1) = (0, 0)) :=
  camera_inverse_roundtrip ((Camera.init 1000 600).add_screen_shake 3 10) 2 (-1) (7, 8) (5, 6)
    (by norm_num [Camera.init, Camera.add_screen_shake, Camera.update, lerp])


/-- C9: touching the flag with levels remaining advances the level and
resets the session: score is zeroed (the +100 flag bonus and all earlier
score discarded) and the avatar is recreated at (100, 400) with 2 lives. -/
theorem flag_advance_resets_progress (g : Game)
    (hflag : g.flag.collected = false)
    (hcol : colliderect (ballRect g.ball) (flagRect g.flag) = true)
    (hlvl : g.current_level < g.max_level) :
    g.check_collisions.score = 0 ∧
    g.check_collisions.ball = Ball.init 100 400 ∧
    g.check_collisions.ball.lives = 2 ∧
    g.check_collisions.current_level = g.current_level + 1 ∧
    g.check_collisions.level_complete = false := by
  simp only [Game.check_collisions]
  split_ifs with h1
  · simp only [Game.reset_level]
    refine ⟨?_, ?_, ?_, ?_, ?_⟩ <;> first | rfl | trivial
  · refine absurd ⟨?_, hcol⟩ h1
    rw [hflag]
    exact Bool.false_ne_true

/-- Witness: a level-1 game with the avatar inside the flag region. -/
theorem flag_advance_resets_progress_witness :
    gAtFlag.check_collisions.score = 0 ∧
    gAtFlag.check_collisions.ball = Ball.init 100 400 ∧
    gAtFlag.check_collisions.ball.lives = 2 ∧
    gAtFlag.check_collisions.current_level = gAtFlag.current_level + 1 ∧
    gAtFlag.check_collisions.level_complete = false :=
  flag_advance_resets_progress gAtFlag
    (by norm_num [gAtFlag, Game.init, Game.reset_level, FlagS.init])
    (by norm_num [gAtFlag, Game.init, Game.reset_level, FlagS.init, Ball.init,
      ballRect, flagRect, mkRect, pyInt, colliderect])
    (by norm_num [gAtFlag, Game.init, Game.reset_level])

set_option maxHeartbeats 4000000 in
/-- C2 counterexample: collecting the third shrink power-up at lives 0
ends check_collisions with lives = -1 while the score (10) is kept, the
avatar stays in place, and the platforms are not recreated: the
transition to zero-or-below lives triggers no reset, and the negative
value persists (the lives-exhausted reset in Game.run fires only inside
the KEYDOWN event branch). -/
theorem shrink_powerup_no_reset_counterexample :
    (Game.check_collisions gShrink).ball.lives = -1 ∧
    (Game.check_collisions gShrink).score = 10 ∧
    (Game.check_collisions gShrink).ball.pos = (1460, 340) ∧
    (Game.check_collisions gShrink).platforms = gShrink.platforms := by
  norm_num [Game.check_collisions, gShrink, Game.init, Game.reset_level,
    create_coins, create_powerups, create_platforms, create_moving_platforms,
    coinStep, powerupStep, coinRect, powerupRect, flagRect, ballRect, mkRect, pyInt,
    colliderect, Coin.init, PowerUpE.init, FlagS.init, Ball.init, Ball.apply_powerup,
    Camera.add_screen_shake, List.foldl, IRect.left, IRect.right, IRect.top, IRect.bottom]

/-- C2 as amended: a shrink collection decrements lives with no clamp
(and never itself triggers a reset, as the counterexample shows); it is
the fall-off-the-playfield transition that, when it brings lives to zero
or below, performs the full reset: score zeroed, every entity collection
recreated, avatar recreated with 2 lives, plus the strong camera shake. -/
theorem lives_reset_spec (g : Game)
    (hfall : (g.height : ℚ) + 100 < g.ball.pos.2)
    (hlives : g.ball.lives ≤ 1) :
    g.fall_check.score = 0 ∧
    g.fall_check.ball = Ball.init 100 400 ∧
    g.fall_check.ball.lives = 2 ∧
    g.fall_check.platforms = create_platforms g.current_level ∧
    g.fall_check.moving_platforms = create_moving_platforms g.current_level ∧
    g.fall_check.coins = create_coins g.current_level ∧
    g.fall_check.powerups = create_powerups g.current_level ∧
    g.fall_check.level_complete = false ∧
    g.fall_check.camera = (Camera.init g.width g.height).add_screen_shake 10 60 ∧
    ∀ b : Ball, (b.apply_powerup .shrink).lives = b.lives - 1 := by
  simp only [Game.fall_check]
  split_ifs with h1
  · simp only [Game.reset_level]
    refine ⟨?_, ?_, ?_, ?_, ?_, ?_, ?_, ?_, ?_, fun b => rfl⟩ <;> first | rfl | trivial
  · exact absurd (by omega : g.ball.lives - 1 ≤ 0) h1

/-- Witness: a game whose avatar fell to y = 800 with one life left. -/
theorem lives_reset_spec_witness :
    gFalling.fall_check.score = 0 ∧
    gFalling.fall_check.ball = Ball.init 100 400 ∧
    gFalling.fall_check.ball.lives = 2 ∧
    gFalling.fall_check.platforms = create_platforms gFalling.current_level ∧
    gFalling.fall_check.moving_platforms = create_moving_platforms gFalling.current_level ∧
    gFalling.fall_check.coins = create_coins gFalling.current_level ∧
    gFalling.fall_check.powerups = create_powerups gFalling.current_level ∧
    gFalling.fall_check.level_complete = false ∧
    gFalling.fall_check.camera =
      (Camera.init gFalling.width gFalling.height).add_screen_shake 10 60 ∧
    ∀ b : Ball, (b.apply_powerup .shrink).lives = b.lives - 1 :=
  lives_reset_spec gFalling
    (by norm_num [gFalling, Game.init, Game.reset_level, Ball.init])
    (by norm_num [gFalling, Game.init, Game.reset_level, Ball.init])

end RedBall
